import Mathlib

/-!
Verification development for the Eye-Spend expense dashboard (`src/app.py`).

The code under verification is a single-session Streamlit application.  Its
business logic is embedded shallowly below:

* Python dictionaries produced by `json.loads` are association lists of
  `JVal` atoms (`PyDict`); nested arrays/objects are not needed by any
  record field the application reads and are folded into parse outcomes.
* The external collaborators (environment variables, `st.secrets`, the
  Gemini API, `PIL.Image.open`, `json.loads`, `datetime.now`) are the
  fields of an `Env` record: each field holds the *outcome* of the
  corresponding call during one run of `analyze_receipt_with_ai`.
* Machine floats are modelled as exact rationals.
-/

set_option maxHeartbeats 1000000

/-- A JSON atom as produced by Python `json.loads` (plus Python ints). -/
inductive JVal where
  | jnull
  | jbool (b : Bool)
  | jint (n : Int)
  | jnum (q : ℚ)
  | jstr (s : String)
deriving DecidableEq

/-- A Python dict with string keys, in insertion order (as `json.loads` yields). -/
abbrev PyDict := List (String × JVal)

/-- Outcome of `json.loads`: a dict, or some non-dict JSON value (on which the
subsequent `.get` attribute access raises). -/
inductive PyJson where
  | dict (entries : PyDict)
  | nondict
deriving DecidableEq

/-- Python dict `d.get(k, default)`. -/
def dictGetD (d : PyDict) (k : String) (default : JVal) : JVal :=
  (List.lookup k d).getD default

/-- Python dict assignment `d[k] = v`: replaces the value in place, keeping key
order; appends at the end when the key is absent. -/
def dictSet (d : PyDict) (k : String) (v : JVal) : PyDict :=
  if d.any (fun p => p.1 == k) then d.map (fun p => if p.1 == k then (k, v) else p)
  else d ++ [(k, v)]

/-- Digits of a numeric literal, most significant first, to a natural number. -/
def digitsToNat (l : List Char) : Nat :=
  l.foldl (fun a c => a * 10 + (c.toNat - 48)) 0

/-- Python `float(x)` on a JSON atom.  Numbers and booleans convert; decimal
strings (optional sign, digits, optional fractional part) convert; anything
else raises (modelled as `Except.error`).  Exotic string forms accepted by
CPython (exponents, `inf`, surrounding whitespace) are not modelled: no record
field the claims exercise uses them. -/
def pyFloat : JVal → Except String ℚ
  | JVal.jint n => Except.ok (n : ℚ)
  | JVal.jnum q => Except.ok q
  | JVal.jbool b => Except.ok (if b then 1 else 0)
  | JVal.jnull => Except.error "TypeError: float() argument must not be None"
  | JVal.jstr s =>
    let l := s.data
    let (sign, l) : ℚ × List Char :=
      match l with
      | '-' :: rest => (-1, rest)
      | '+' :: rest => (1, rest)
      | rest => (1, rest)
    let intPart := l.takeWhile Char.isDigit
    let rest := l.dropWhile Char.isDigit
    match rest with
    | [] =>
      if intPart.isEmpty then Except.error "ValueError: could not convert string to float"
      else Except.ok (sign * digitsToNat intPart)
    | '.' :: frac =>
      if frac.all Char.isDigit ∧ ¬(intPart.isEmpty ∧ frac.isEmpty) then
        Except.ok (sign * ((digitsToNat intPart : ℚ) + (digitsToNat frac : ℚ) / (10 : ℚ) ^ frac.length))
      else Except.error "ValueError: could not convert string to float"
    | _ => Except.error "ValueError: could not convert string to float"

/-- Truncation of a rational toward zero, as Python `int(float)` does. -/
def truncRat (q : ℚ) : Int :=
  if 0 ≤ q then ⌊q⌋ else -⌊-q⌋

/-- Python `int(x)` on a JSON atom.  Ints, floats (truncated toward zero),
booleans and decimal integer strings convert; anything else raises. -/
def pyInt : JVal → Except String Int
  | JVal.jint n => Except.ok n
  | JVal.jnum q => Except.ok (truncRat q)
  | JVal.jbool b => Except.ok (if b then 1 else 0)
  | JVal.jnull => Except.error "TypeError: int() argument must not be None"
  | JVal.jstr s =>
    let (sign, l) : Int × List Char :=
      match s.data with
      | '-' :: rest => (-1, rest)
      | '+' :: rest => (1, rest)
      | rest => (1, rest)
    if l.isEmpty ∨ ¬l.all Char.isDigit then
      Except.error "ValueError: invalid literal for int()"
    else Except.ok (sign * digitsToNat l)

/-- Python truthiness of an optional string (`None` and `""` are falsy). -/
def pyTruthy : Option String → Bool
  | none => false
  | some s => !(s == "")

/-- Character-level `str.strip()` helper. -/
def trimChars (l : List Char) : List Char :=
  ((l.dropWhile Char.isWhitespace).reverse.dropWhile Char.isWhitespace).reverse

/-- Python `str.strip()`. -/
def pyStrip (s : String) : String := ⟨trimChars s.data⟩

/-- Python `str.startswith`. -/
def strStartsWith (s pre : String) : Bool := pre.data.isPrefixOf s.data

/-- Python `str.endswith`. -/
def strEndsWith (s suf : String) : Bool := suf.data.isSuffixOf s.data

/-- Python slicing `s[n:]` (character based). -/
def strDrop (s : String) (n : Nat) : String := ⟨s.data.drop n⟩

/-- Python slicing `s[:-n]` (character based; empty when `n` exceeds the length). -/
def strDropRight (s : String) (n : Nat) : String := ⟨s.data.take (s.data.length - n)⟩

/-- The markdown-fence cleanup applied to `response.text` in
`analyze_receipt_with_ai` (`src/app.py` lines 186-190): strip whitespace, drop a
leading fence with a json language tag, drop a trailing fence. -/
def clean_response_text (t : String) : String :=
  let t1 := pyStrip t
  let t2 := if strStartsWith t1 "```json" then strDrop t1 7 else t1
  if strEndsWith t2 "```" then strDropRight t2 3 else t2

/-- Leap-year rule used by `datetime`. -/
def isLeapYear (y : Nat) : Bool :=
  (y % 4 == 0 && y % 100 != 0) || (y % 400 == 0)

/-- Days in a month, as `datetime` validates them. -/
def daysInMonth (y m : Nat) : Nat :=
  if m = 2 then (if isLeapYear y then 29 else 28)
  else if m = 4 ∨ m = 6 ∨ m = 9 ∨ m = 11 then 30
  else 31

/-- Split a character list on the dash character (like `"-"`-separation in the
CPython `strptime` regex for `%Y-%m-%d`). -/
def splitDash : List Char → List (List Char)
  | [] => [[]]
  | c :: rest =>
    let r := splitDash rest
    if c = '-' then [] :: r
    else
      match r with
      | [] => [[c]]
      | h :: t => (c :: h) :: t

/-- Model of `datetime.strptime(s, "%Y-%m-%d")` (`src/app.py` line 315): the
year is exactly four digits, month and day are one or two digits in range, and
the day must exist in the month; any other input raises `ValueError`
(modelled as `none`). -/
def strptime_Ymd (s : String) : Option (Nat × Nat × Nat) :=
  match splitDash s.data with
  | [ys, ms, ds] =>
    if ys.length = 4 ∧ ys.all Char.isDigit = true ∧
       1 ≤ ms.length ∧ ms.length ≤ 2 ∧ ms.all Char.isDigit = true ∧
       1 ≤ ds.length ∧ ds.length ≤ 2 ∧ ds.all Char.isDigit = true then
      let y := digitsToNat ys
      let m := digitsToNat ms
      let d := digitsToNat ds
      if 1 ≤ y ∧ 1 ≤ m ∧ m ≤ 12 ∧ 1 ≤ d ∧ d ≤ daysInMonth y m then some (y, m, d)
      else none
    else none
  | _ => none

/-- One entry of `genai.list_models()`. -/
structure GModel where
  name : String
  supported_generation_methods : List String
deriving DecidableEq

/-- Python `pat in s` substring test (for nonempty `pat`). -/
def strContainsSub (s pat : String) : Bool := (s.splitOn pat).length != 1

/-- The dynamic model selection of `src/app.py` lines 154-161: default
`gemini-1.5-flash`; scan `genai.list_models()` for the first entry supporting
`generateContent` whose name contains `flash`; fall back to the default when
listing raises. -/
def select_model (models : Except String (List GModel)) : String :=
  match models with
  | Except.error _ => "gemini-1.5-flash"
  | Except.ok ms =>
    match ms.find? (fun m =>
        m.supported_generation_methods.contains "generateContent" && strContainsSub m.name "flash") with
    | some m => m.name
    | none => "gemini-1.5-flash"

/-- Outcomes of the external collaborators during one run of
`analyze_receipt_with_ai`.  `today` is the string produced by
`datetime.now().strftime("%Y-%m-%d")`; `respond` maps the selected model name
to the outcome of `model.generate_content([prompt, image]).text`; `jsonLoads`
is the behaviour of `json.loads` on the cleaned response text. -/
structure Env where
  envKey : Option String
  secretsKey : Option String
  today : String
  models : Except String (List GModel)
  decodeImage : Except String Unit
  respond : String → Except String String
  jsonLoads : String → Except String PyJson

/-- Credential resolution of `src/app.py` lines 132-137: the environment
variable `API_KEY` first; when falsy, `st.secrets["GEMINI_API_KEY"]`
(whose absence raises and leaves the value unchanged). -/
def resolve_api_key (envKey secretsKey : Option String) : Option String :=
  if pyTruthy envKey then envKey
  else
    match secretsKey with
    | some s => some s
    | none => envKey

/-- The degraded record returned when no API key is resolvable
(`src/app.py` lines 141-148). -/
def missing_key_record (today : String) : PyDict :=
  [("vendor", JVal.jstr "Unknown"),
   ("date", JVal.jstr today),
   ("amount", JVal.jnum 0),
   ("category", JVal.jstr "Uncategorized"),
   ("risk_score", JVal.jint 0),
   ("risk_reason", JVal.jstr "API Key missing.")]

/-- The degraded record returned when the analysis body raises
(`src/app.py` lines 202-209); `e` is the exception text. -/
def error_record (today : String) (e : String) : PyDict :=
  [("vendor", JVal.jstr "Error"),
   ("date", JVal.jstr today),
   ("amount", JVal.jnum 0),
   ("category", JVal.jstr "Error"),
   ("risk_score", JVal.jint 0),
   ("risk_reason", JVal.jstr ("Analysis failed: " ++ e))]

/-- The `try` body of `analyze_receipt_with_ai` (`src/app.py` lines 150-198):
select a model, decode the image, call the model, strip fence markup, parse
JSON, coerce `amount` with `float` and `risk_score` with `int`.  Any raised
exception is an `Except.error` carrying the exception text. -/
def analyze_try (env : Env) : Except String PyDict :=
  let model_name := select_model env.models
  match env.decodeImage with
  | Except.error e => Except.error e
  | Except.ok _ =>
    match env.respond model_name with
    | Except.error e => Except.error e
    | Except.ok raw =>
      let response_text := clean_response_text raw
      match env.jsonLoads response_text with
      | Except.error e => Except.error e
      | Except.ok PyJson.nondict => Except.error "AttributeError: object has no attribute get"
      | Except.ok (PyJson.dict data) =>
        match pyFloat (dictGetD data "amount" (JVal.jnum 0)) with
        | Except.error e => Except.error e
        | Except.ok amount =>
          match pyInt (dictGetD data "risk_score" (JVal.jint 0)) with
          | Except.error e => Except.error e
          | Except.ok risk_score =>
            Except.ok (dictSet (dictSet data "amount" (JVal.jnum amount))
              "risk_score" (JVal.jint risk_score))

/-- `analyze_receipt_with_ai` (`src/app.py` lines 128-209).  The second
component records whether any request to the external service was attempted
(model listing and content generation happen exactly on the with-key branch). -/
def analyze_receipt_with_ai (env : Env) : PyDict × Bool :=
  let api_key := resolve_api_key env.envKey env.secretsKey
  if pyTruthy api_key then
    match analyze_try env with
    | Except.ok data => (data, true)
    | Except.error e => (error_record env.today e, true)
  else
    (missing_key_record env.today, false)

/-- Risk level derived in the tab-1 results card. -/
inductive Level where
  | Low
  | Medium
  | High
deriving DecidableEq

/-- The risk classification of `src/app.py` lines 333-344: sequential
reassignment, Low defaults, then `score > 50` sets Medium, then `score > 80`
sets High.  Returns (level, status emoji, approval action). -/
def classify (score : Int) : Level × String × String :=
  let res := (Level.Low, "✅", "Auto-Approve")
  let res := if score > 50 then (Level.Medium, "⚠️", "Requires Review") else res
  let res := if score > 80 then (Level.High, "❌", "Auto-Reject") else res
  res

/-- One row of the `full_history` data frame.  Fields are optional because
`pd.concat` aligns columns by name and fills missing ones with NaN. -/
structure Row where
  Category : Option String
  Amount : Option ℚ
  Date : Option (Nat × Nat × Nat)
deriving DecidableEq

/-- The per-session state touched by the tab-1 analysis handler. -/
structure Sess where
  history : List PyDict
  full_history : List Row
deriving DecidableEq

/-- The most recent analyzed record, `st.session_state['history'][-1]`
(`src/app.py` line 329); the view only reads it when the list is nonempty. -/
def latestRecord (history : List PyDict) : Option PyDict := history.getLast?

/-- The row `pd.concat` appends to `full_history` for an analyzed record
(`src/app.py` lines 314-318).  The analyzer dict has lowercase keys
(`category`, `amount`) while the seeded frame has capitalized columns
(`Category`, `Amount`), so `pd.concat` aligns by name and the appended row
carries NaN in those columns; the parsed date is stored in `Date`. -/
def mkFullRow (data : PyDict) (ymd : Nat × Nat × Nat) : Row :=
  { Category := match List.lookup "Category" data with
                | some (JVal.jstr s) => some s
                | _ => none,
    Amount := match List.lookup "Amount" data with
              | some (JVal.jnum q) => some q
              | some (JVal.jint n) => some (n : ℚ)
              | _ => none,
    Date := some ymd }

/-- The date-extraction step of the handler: `data['date']` must exist, be a
string, and parse under `%Y-%m-%d`. -/
def recordDate? (data : PyDict) : Option (Nat × Nat × Nat) :=
  match List.lookup "date" data with
  | some (JVal.jstr s) => strptime_Ymd s
  | _ => none

/-- The tab-1 analysis handler (`src/app.py` lines 304-320): run the analyzer,
append the record to `history`, then build the new frame row — where
`datetime.strptime(data['date'], '%Y-%m-%d')` may raise — and append it to
`full_history`.  The second component is the exception escaping the handler,
`none` when it completes. -/
def run_analysis (env : Env) (s : Sess) : Sess × Option String :=
  let data := (analyze_receipt_with_ai env).1
  let s1 : Sess := { s with history := s.history ++ [data] }
  match List.lookup "date" data with
  | none => (s1, some "KeyError: date")
  | some (JVal.jstr ds) =>
    match strptime_Ymd ds with
    | none => (s1, some "ValueError: time data does not match format %Y-%m-%d")
    | some ymd =>
      ({ s1 with full_history := s1.full_history ++ [mkFullRow data ymd] }, none)
  | some _ => (s1, some "TypeError: strptime argument must be a string")

/-- Categories present in the table (first lookup key set of the groupby). -/
def rowCats (t : List Row) : List String := (t.filterMap Row.Category).dedup

/-- Total amount of one category over the full table; NaN amounts are skipped,
as `pandas` `sum` does. -/
def catTotal (t : List Row) (c : String) : ℚ :=
  (t.filterMap (fun r => if r.Category = some c then r.Amount else none)).sum

/-- Lexicographic strict order on character lists (code-point order, as both
Python and `pandas` compare strings). -/
def charListLtB : List Char → List Char → Bool
  | [], [] => false
  | [], _ :: _ => true
  | _ :: _, [] => false
  | a :: as, b :: bs => if a < b then true else if b < a then false else charListLtB as bs

/-- Lexicographic strict order on strings. -/
def strLtB (a b : String) : Bool := charListLtB a.data b.data

/-- Boolean `≤` on strings for the groupby key sort. -/
def strLeB (a b : String) : Bool := a == b || strLtB a b

/-- Insert into an ascending list of category names. -/
def insertAscStr (x : String) : List String → List String
  | [] => [x]
  | y :: ys => if strLeB x y then x :: y :: ys else y :: insertAscStr x ys

/-- Sort category names ascending (`groupby` sorts its keys). -/
def sortStrAsc : List String → List String
  | [] => []
  | x :: xs => insertAscStr x (sortStrAsc xs)

/-- `df_recent.groupby('Category')['Amount'].sum().reset_index()`
(`src/app.py` line 398): rows with NaN category are dropped, keys are the
distinct categories sorted ascending, each mapped to its summed amount. -/
def df_summary (t : List Row) : List (String × ℚ) :=
  (sortStrAsc (rowCats t)).map (fun c => (c, catTotal t c))

/-- Descending-by-amount ordering used by `sort_values(by="Amount",
ascending=False)`. -/
def amountDescRel (a b : String × ℚ) : Prop := b.2 ≤ a.2

instance : DecidableRel amountDescRel := fun a b => inferInstanceAs (Decidable (b.2 ≤ a.2))

instance : IsTotal (String × ℚ) amountDescRel := ⟨fun a b => le_total b.2 a.2⟩

instance : IsTrans (String × ℚ) amountDescRel := ⟨fun _ _ _ h1 h2 => le_trans h2 h1⟩

/-- Stable descending sort of the summary by amount, modelling
`sort_values(by="Amount", ascending=False)` (`src/app.py` line 415); ties keep
the order of the summary mapping (`numpy` introsort is insertion sort — hence
stable — at the sizes this table reaches). -/
def sortDesc (s : List (String × ℚ)) : List (String × ℚ) :=
  List.insertionSort amountDescRel s

/-- The top-`n` categories by total, descending: `sort_values(...).head(n)`
(`src/app.py` line 415; the source instantiates `n = 3`, the spec names the
general operation `topN`). -/
def topN (summary : List (String × ℚ)) (n : Nat) : List (String × ℚ) :=
  (sortDesc summary).take n

/-- Sum of the `Amount` column over the table (`df_history['Amount'].sum()`,
NaN skipped). -/
def amountSum (t : List Row) : ℚ := (t.filterMap Row.Amount).sum

/-- Result of `get_financial_advice_and_prediction` (`src/app.py`
lines 211-234). -/
structure AdviceResult where
  monthly_forecast : ℚ
  cuttable_expenses : String
  advice : List String
deriving DecidableEq

/-- The hard-coded advice list of `src/app.py` lines 220-225. -/
def advice_list : List String :=
  ["Your **Software** spending is efficient at just 15% of your total budget. Keep utilizing subscription bundles.",
   "The **Meals** category shows frequent high-value transactions. Consider setting a daily cap of $50 to cut costs by 15%.",
   "**Entertainment** expenses currently exceed internal policy thresholds. We recommend cutting these expenses completely to save $1,200/month.",
   "Optimize **Travel** by booking flights 21 days in advance; this could reduce airfare costs by 10% next month."]

/-- Round half to even, as Python `round` does on the integer grid. -/
def roundHalfEven (q : ℚ) : Int :=
  let f := ⌊q⌋
  let r := q - (f : ℚ)
  if r < 1 / 2 then f
  else if 1 / 2 < r then f + 1
  else if f % 2 = 0 then f else f + 1

/-- Python `round(x, 2)` (idealized over exact rationals). -/
def pyRound2 (q : ℚ) : ℚ := (roundHalfEven (q * 100) : ℚ) / 100

/-- `get_financial_advice_and_prediction` (`src/app.py` lines 211-234).
`u` is the sample drawn by `random.uniform(0.95, 1.05)`; the forecast is the
summed history times `u`, rounded to two decimals; the rest is fixed text. -/
def get_financial_advice_and_prediction (df_history : List Row) (u : ℚ) : AdviceResult :=
  { monthly_forecast := pyRound2 (amountSum df_history * u),
    cuttable_expenses := "Entertainment, High-Value Meals",
    advice := advice_list }

/-! ### Helper lemmas about dict lookups -/

theorem lookup_cons_self (k : String) (v : JVal) (d : PyDict) :
    List.lookup k ((k, v) :: d) = some v := by
  rw [List.lookup_cons]
  simp

theorem lookup_cons_ne (k a : String) (v : JVal) (d : PyDict) (h : ¬ k = a) :
    List.lookup k ((a, v) :: d) = List.lookup k d := by
  rw [List.lookup_cons]
  have hb : (k == a) = false := by simp [h]
  rw [hb]

theorem lookup_map_set (k : String) (v : JVal) :
    ∀ d : PyDict, d.any (fun p => p.1 == k) = true →
      List.lookup k (d.map (fun p => if p.1 == k then (k, v) else p)) = some v := by
  intro d
  induction d with
  | nil => simp
  | cons p ps ih =>
    intro h
    rcases p with ⟨a, b⟩
    simp only [List.map_cons]
    by_cases ha : a = k
    · rw [if_pos (by simp [ha])]
      exact lookup_cons_self k v _
    · rw [if_neg (by simp [ha])]
      have hka : ¬ k = a := fun hka => ha hka.symm
      rw [lookup_cons_ne k a b _ hka]
      apply ih
      simp only [List.any_cons] at h
      have hab : (a == k) = false := by simp [ha]
      simpa [hab] using h

theorem lookup_append_self (k : String) (v : JVal) :
    ∀ d : PyDict, d.any (fun p => p.1 == k) = false →
      List.lookup k (d ++ [(k, v)]) = some v := by
  intro d
  induction d with
  | nil => intro _; exact lookup_cons_self k v []
  | cons p ps ih =>
    intro h
    simp only [List.any_cons, Bool.or_eq_false_iff] at h
    rcases p with ⟨a, b⟩
    have hka : ¬ k = a := by
      intro hka
      subst hka
      simp at h
    rw [List.cons_append, lookup_cons_ne k a b _ hka]
    exact ih h.2

theorem lookup_dictSet_self (d : PyDict) (k : String) (v : JVal) :
    List.lookup k (dictSet d k v) = some v := by
  unfold dictSet
  by_cases h : d.any (fun p => p.1 == k) = true
  · rw [if_pos h]
    exact lookup_map_set k v d h
  · rw [if_neg h]
    exact lookup_append_self k v d (Bool.eq_false_iff.mpr h)

theorem lookup_map_set_ne (k k' : String) (v : JVal) (hne : ¬ k' = k) :
    ∀ d : PyDict,
      List.lookup k' (d.map (fun p => if p.1 == k then (k, v) else p)) = List.lookup k' d := by
  intro d
  induction d with
  | nil => rfl
  | cons p ps ih =>
    rcases p with ⟨a, b⟩
    simp only [List.map_cons]
    by_cases ha : a = k
    · subst ha
      rw [if_pos (by simp)]
      rw [lookup_cons_ne k' a v _ hne, lookup_cons_ne k' a b _ hne]
      exact ih
    · rw [if_neg (by simp [ha])]
      by_cases hk'a : k' = a
      · subst hk'a
        rw [lookup_cons_self, lookup_cons_self]
      · rw [lookup_cons_ne _ _ _ _ hk'a, lookup_cons_ne _ _ _ _ hk'a]
        exact ih

theorem lookup_append_single_ne (k k' : String) (v : JVal) (hne : ¬ k' = k) :
    ∀ d : PyDict, List.lookup k' (d ++ [(k, v)]) = List.lookup k' d := by
  intro d
  induction d with
  | nil =>
    rw [List.nil_append, lookup_cons_ne _ _ _ _ hne]
  | cons p ps ih =>
    rcases p with ⟨a, b⟩
    rw [List.cons_append]
    by_cases hk'a : k' = a
    · subst hk'a
      rw [lookup_cons_self, lookup_cons_self]
    · rw [lookup_cons_ne _ _ _ _ hk'a, lookup_cons_ne _ _ _ _ hk'a, ih]

theorem lookup_dictSet_ne (d : PyDict) (k k' : String) (v : JVal) (hne : ¬ k' = k) :
    List.lookup k' (dictSet d k v) = List.lookup k' d := by
  unfold dictSet
  by_cases h : d.any (fun p => p.1 == k) = true
  · rw [if_pos h]
    exact lookup_map_set_ne k k' v hne d
  · rw [if_neg h]
    exact lookup_append_single_ne k k' v hne d

/-! ### Concrete environments used by witnesses and counterexamples -/

/-- An environment with no resolvable credential. -/
def envNoKey : Env :=
  { envKey := none, secretsKey := none, today := "2024-05-01",
    models := Except.ok [], decodeImage := Except.ok (),
    respond := fun _ => Except.ok "resp",
    jsonLoads := fun _ => Except.error "Expecting value: line 1 column 1 (char 0)" }

/-- An environment where the model answers with text that is not valid JSON. -/
def envParseFail : Env :=
  { envKey := some "k", secretsKey := none, today := "2024-05-01",
    models := Except.ok [], decodeImage := Except.ok (),
    respond := fun _ => Except.ok "I am not JSON",
    jsonLoads := fun _ => Except.error "Expecting value: line 1 column 1 (char 0)" }

/-- An environment whose model reply parses to a record with an out-of-range
risk score and a negative amount. -/
def envBadScore : Env :=
  { envKey := some "k", secretsKey := none, today := "2024-05-01",
    models := Except.ok [], decodeImage := Except.ok (),
    respond := fun _ => Except.ok "resp",
    jsonLoads := fun _ => Except.ok (PyJson.dict
      [("vendor", JVal.jstr "V"), ("date", JVal.jstr "2024-01-01"),
       ("amount", JVal.jnum (-5)), ("category", JVal.jstr "Meals"),
       ("risk_score", JVal.jint 150), ("risk_reason", JVal.jstr "r")]) }

/-- An environment whose model reply parses to a record whose date string is
not a calendar date. -/
def envBadDate : Env :=
  { envKey := some "k", secretsKey := none, today := "2024-05-01",
    models := Except.ok [], decodeImage := Except.ok (),
    respond := fun _ => Except.ok "resp",
    jsonLoads := fun _ => Except.ok (PyJson.dict
      [("vendor", JVal.jstr "Shop"), ("date", JVal.jstr "not-a-date"),
       ("amount", JVal.jnum 42), ("category", JVal.jstr "Meals"),
       ("risk_score", JVal.jint 10), ("risk_reason", JVal.jstr "ok")]) }

/-- An environment whose JSON parser accepts everything (used to compare runs
differing only in the model response wrapping). -/
def envOkJson : Env :=
  { envKey := some "k", secretsKey := none, today := "2024-05-01",
    models := Except.ok [], decodeImage := Except.ok (),
    respond := fun _ => Except.ok "null",
    jsonLoads := fun _ => Except.ok PyJson.nondict }

/-! ### C1: risk classification boundaries -/

/-- C1: the risk classification maps `score > 80` to High/Auto-Reject,
`50 < score <= 80` to Medium/Requires Review and `score <= 50` to
Low/Auto-Approve; in particular at the boundary inputs 81, 80, 50 and 0. -/
theorem classify_risk_boundaries :
    (∀ s : Int, 80 < s → classify s = (Level.High, "❌", "Auto-Reject")) ∧
    (∀ s : Int, 50 < s → s ≤ 80 → classify s = (Level.Medium, "⚠️", "Requires Review")) ∧
    (∀ s : Int, s ≤ 50 → classify s = (Level.Low, "✅", "Auto-Approve")) ∧
    classify 81 = (Level.High, "❌", "Auto-Reject") ∧
    classify 80 = (Level.Medium, "⚠️", "Requires Review") ∧
    classify 50 = (Level.Low, "✅", "Auto-Approve") ∧
    classify 0 = (Level.Low, "✅", "Auto-Approve") := by
  refine ⟨fun s h => ?_, fun s h1 h2 => ?_, fun s h => ?_, rfl, rfl, rfl, rfl⟩
  · show (if s > 80 then (Level.High, "❌", "Auto-Reject")
      else if s > 50 then (Level.Medium, "⚠️", "Requires Review")
      else (Level.Low, "✅", "Auto-Approve")) = _
    rw [if_pos h]
  · show (if s > 80 then (Level.High, "❌", "Auto-Reject")
      else if s > 50 then (Level.Medium, "⚠️", "Requires Review")
      else (Level.Low, "✅", "Auto-Approve")) = _
    rw [if_neg (by omega), if_pos h1]
  · show (if s > 80 then (Level.High, "❌", "Auto-Reject")
      else if s > 50 then (Level.Medium, "⚠️", "Requires Review")
      else (Level.Low, "✅", "Auto-Approve")) = _
    rw [if_neg (by omega), if_neg (by omega)]

/-- Witness for C1 at the concrete boundary input 81. -/
theorem classify_risk_boundaries_witness :
    classify 81 = (Level.High, "❌", "Auto-Reject") :=
  classify_risk_boundaries.1 81 (by decide)

/-! ### C3: missing credential -/

/-- C3: when no API credential is resolvable, `analyze_receipt_with_ai`
returns the degraded record with `risk_score` 0, vendor `"Unknown"` and a
non-empty risk reason naming the missing key, and attempts no request to the
external service (second component `false`). -/
theorem analyze_missing_key_degraded_no_network :
    ∀ env : Env, pyTruthy (resolve_api_key env.envKey env.secretsKey) = false →
      analyze_receipt_with_ai env = (missing_key_record env.today, false) ∧
      List.lookup "risk_score" (missing_key_record env.today) = some (JVal.jint 0) ∧
      List.lookup "vendor" (missing_key_record env.today) = some (JVal.jstr "Unknown") ∧
      List.lookup "risk_reason" (missing_key_record env.today) =
        some (JVal.jstr "API Key missing.") ∧
      "API Key missing." ≠ "" := by
  intro env h
  refine ⟨?_, rfl, rfl, rfl, by decide⟩
  simp only [analyze_receipt_with_ai, h, Bool.false_eq_true, if_false]

/-- Witness for C3 in the concrete credential-free environment. -/
theorem analyze_missing_key_degraded_no_network_witness :
    analyze_receipt_with_ai envNoKey = (missing_key_record envNoKey.today, false) ∧
    List.lookup "risk_score" (missing_key_record envNoKey.today) = some (JVal.jint 0) ∧
    List.lookup "vendor" (missing_key_record envNoKey.today) = some (JVal.jstr "Unknown") ∧
    List.lookup "risk_reason" (missing_key_record envNoKey.today) =
      some (JVal.jstr "API Key missing.") ∧
    "API Key missing." ≠ "" :=
  analyze_missing_key_degraded_no_network envNoKey rfl

/-! ### C10: the two degradations are distinguishable -/

/-- C10: the credential-missing record has category `"Uncategorized"`, amount
exactly 0 and the current date string, while the analysis-failure record has
category `"Error"`, so the two degradations are distinguishable. -/
theorem missing_key_record_distinct_from_error :
    ∀ (env : Env) (e : String),
      pyTruthy (resolve_api_key env.envKey env.secretsKey) = false →
      (analyze_receipt_with_ai env).1 = missing_key_record env.today ∧
      List.lookup "category" (missing_key_record env.today) =
        some (JVal.jstr "Uncategorized") ∧
      List.lookup "amount" (missing_key_record env.today) = some (JVal.jnum 0) ∧
      List.lookup "date" (missing_key_record env.today) = some (JVal.jstr env.today) ∧
      List.lookup "category" (error_record env.today e) = some (JVal.jstr "Error") ∧
      "Uncategorized" ≠ "Error" := by
  intro env e h
  refine ⟨?_, rfl, rfl, rfl, rfl, by decide⟩
  simp only [analyze_receipt_with_ai, h, Bool.false_eq_true, if_false]

/-- Witness for C10 in the concrete credential-free environment. -/
theorem missing_key_record_distinct_from_error_witness :
    (analyze_receipt_with_ai envNoKey).1 = missing_key_record envNoKey.today ∧
    List.lookup "category" (missing_key_record envNoKey.today) =
      some (JVal.jstr "Uncategorized") ∧
    List.lookup "amount" (missing_key_record envNoKey.today) = some (JVal.jnum 0) ∧
    List.lookup "date" (missing_key_record envNoKey.today) =
      some (JVal.jstr envNoKey.today) ∧
    List.lookup "category" (error_record envNoKey.today "boom") =
      some (JVal.jstr "Error") ∧
    "Uncategorized" ≠ "Error" :=
  missing_key_record_distinct_from_error envNoKey "boom" rfl

/-! ### C2: analysis failures degrade to the error record -/

/-- C2: each failure of the external analysis — image decoding error, network
error from the model call, or a response that is not valid JSON after fence
stripping — makes the try body fail, and every failing try body yields the
well-formed error record (vendor and category `"Error"`, risk reason carrying
the failure detail); the function returns it instead of raising. -/
theorem analyze_failure_degrades_to_error_record :
    (∀ (env : Env) (e : String),
        env.decodeImage = Except.error e → analyze_try env = Except.error e) ∧
    (∀ (env : Env) (e : String),
        env.decodeImage = Except.ok () →
        env.respond (select_model env.models) = Except.error e →
        analyze_try env = Except.error e) ∧
    (∀ (env : Env) (raw e : String),
        env.decodeImage = Except.ok () →
        env.respond (select_model env.models) = Except.ok raw →
        env.jsonLoads (clean_response_text raw) = Except.error e →
        analyze_try env = Except.error e) ∧
    (∀ (env : Env) (e : String),
        pyTruthy (resolve_api_key env.envKey env.secretsKey) = true →
        analyze_try env = Except.error e →
        analyze_receipt_with_ai env = (error_record env.today e, true) ∧
        List.lookup "vendor" (error_record env.today e) = some (JVal.jstr "Error") ∧
        List.lookup "category" (error_record env.today e) = some (JVal.jstr "Error") ∧
        List.lookup "risk_reason" (error_record env.today e) =
          some (JVal.jstr ("Analysis failed: " ++ e))) := by
  refine ⟨?_, ?_, ?_, ?_⟩
  · intro env e h
    simp only [analyze_try, h]
  · intro env e h1 h2
    simp only [analyze_try, h1, h2]
  · intro env raw e h1 h2 h3
    simp only [analyze_try, h1, h2, h3]
  · intro env e hkey htry
    refine ⟨?_, rfl, rfl, rfl⟩
    simp only [analyze_receipt_with_ai, hkey, if_true, htry]

/-- Witness for C2: a concrete run whose model response fails to parse. -/
theorem analyze_failure_degrades_to_error_record_witness :
    analyze_receipt_with_ai envParseFail =
      (error_record envParseFail.today "Expecting value: line 1 column 1 (char 0)", true) ∧
    List.lookup "vendor"
      (error_record envParseFail.today "Expecting value: line 1 column 1 (char 0)") =
      some (JVal.jstr "Error") ∧
    List.lookup "category"
      (error_record envParseFail.today "Expecting value: line 1 column 1 (char 0)") =
      some (JVal.jstr "Error") ∧
    List.lookup "risk_reason"
      (error_record envParseFail.today "Expecting value: line 1 column 1 (char 0)") =
      some (JVal.jstr ("Analysis failed: " ++ "Expecting value: line 1 column 1 (char 0)")) :=
  analyze_failure_degrades_to_error_record.2.2.2 envParseFail
    "Expecting value: line 1 column 1 (char 0)" rfl rfl

/-! ### C4: riskScore range and amount sign are not enforced -/

/-- Counterexample to C4: in `envBadScore` the external model reports
`risk_score` 150 and `amount` -5; the record returned by the analyzer carries
them unchanged, so its risk score exceeds 100 and its amount is negative. -/
theorem analyze_riskScore_range_counterexample :
    List.lookup "risk_score" (analyze_receipt_with_ai envBadScore).1 =
      some (JVal.jint 150) ∧
    (100 : Int) < 150 ∧
    List.lookup "amount" (analyze_receipt_with_ai envBadScore).1 =
      some (JVal.jnum (-5)) ∧
    (-5 : ℚ) < 0 := by
  exact ⟨rfl, by decide, rfl, by norm_num⟩

/-- Structure of a successful try body: the returned dict is the parsed dict
with `amount` overwritten by its `float` coercion and `risk_score` by its
`int` coercion — no range clamping happens. -/
theorem analyze_try_ok_shape :
    ∀ (env : Env) (d : PyDict), analyze_try env = Except.ok d →
      ∃ (data : PyDict) (a : ℚ) (r : Int),
        d = dictSet (dictSet data "amount" (JVal.jnum a)) "risk_score" (JVal.jint r) := by
  intro env d h
  simp only [analyze_try] at h
  split at h
  · exact absurd h (by simp)
  · split at h
    · exact absurd h (by simp)
    · split at h
      · exact absurd h (by simp)
      · exact absurd h (by simp)
      · split at h
        · exact absurd h (by simp)
        · split at h
          · exact absurd h (by simp)
          · rw [Except.ok.injEq] at h
            exact ⟨_, _, _, h.symm⟩

/-- C4 amended: on both degraded paths the record has `risk_score` 0 and
amount 0 (hence in range); on the success path the returned record is the
parsed dict whose `risk_score` is whatever integer the coercion produced and
whose `amount` is whatever rational the coercion produced, unclamped. -/
theorem analyze_riskScore_amount_coercion :
    (∀ today : String,
        List.lookup "risk_score" (missing_key_record today) = some (JVal.jint 0) ∧
        List.lookup "amount" (missing_key_record today) = some (JVal.jnum 0)) ∧
    (∀ today e : String,
        List.lookup "risk_score" (error_record today e) = some (JVal.jint 0) ∧
        List.lookup "amount" (error_record today e) = some (JVal.jnum 0)) ∧
    (∀ env : Env, pyTruthy (resolve_api_key env.envKey env.secretsKey) = false →
        (analyze_receipt_with_ai env).1 = missing_key_record env.today) ∧
    (∀ (env : Env) (e : String),
        pyTruthy (resolve_api_key env.envKey env.secretsKey) = true →
        analyze_try env = Except.error e →
        (analyze_receipt_with_ai env).1 = error_record env.today e) ∧
    (∀ (env : Env) (d : PyDict),
        pyTruthy (resolve_api_key env.envKey env.secretsKey) = true →
        analyze_try env = Except.ok d →
        (analyze_receipt_with_ai env).1 = d ∧
        (∃ r : Int, List.lookup "risk_score" d = some (JVal.jint r)) ∧
        (∃ a : ℚ, List.lookup "amount" d = some (JVal.jnum a))) := by
  refine ⟨fun _ => ⟨rfl, rfl⟩, fun _ _ => ⟨rfl, rfl⟩, ?_, ?_, ?_⟩
  · intro env h
    simp only [analyze_receipt_with_ai, h, Bool.false_eq_true, if_false]
  · intro env e hkey htry
    simp only [analyze_receipt_with_ai, hkey, if_true, htry]
  · intro env d hkey htry
    refine ⟨by simp only [analyze_receipt_with_ai, hkey, if_true, htry], ?_, ?_⟩
    · obtain ⟨data, a, r, rfl⟩ := analyze_try_ok_shape env d htry
      exact ⟨r, lookup_dictSet_self _ _ _⟩
    · obtain ⟨data, a, r, rfl⟩ := analyze_try_ok_shape env d htry
      refine ⟨a, ?_⟩
      rw [lookup_dictSet_ne _ _ _ _ (by decide)]
      exact lookup_dictSet_self _ _ _

/-- Witness for C4 amended: the bad-score environment exercises the success
path, where the out-of-range coerced values flow through. -/
theorem analyze_riskScore_amount_coercion_witness :
    (analyze_receipt_with_ai envBadScore).1 =
      dictSet (dictSet
        [("vendor", JVal.jstr "V"), ("date", JVal.jstr "2024-01-01"),
         ("amount", JVal.jnum (-5)), ("category", JVal.jstr "Meals"),
         ("risk_score", JVal.jint 150), ("risk_reason", JVal.jstr "r")]
        "amount" (JVal.jnum (-5))) "risk_score" (JVal.jint 150) ∧
    (∃ r : Int, List.lookup "risk_score" (analyze_receipt_with_ai envBadScore).1 =
      some (JVal.jint r)) ∧
    (∃ a : ℚ, List.lookup "amount" (analyze_receipt_with_ai envBadScore).1 =
      some (JVal.jnum a)) :=
  (analyze_riskScore_amount_coercion.2.2.2.2 envBadScore
    (dictSet (dictSet
      [("vendor", JVal.jstr "V"), ("date", JVal.jstr "2024-01-01"),
       ("amount", JVal.jnum (-5)), ("category", JVal.jstr "Meals"),
       ("risk_score", JVal.jint 150), ("risk_reason", JVal.jstr "r")]
      "amount" (JVal.jnum (-5))) "risk_score" (JVal.jint 150)) rfl rfl)

/-! ### C5: store operations and history-table growth -/

/-- Counterexample to C5: with no credential the analysis is not successful
(the record is the degraded `"Unknown"` record), yet the handler still adds a
row to the history table, because the degraded record's date is the current
date and parses. -/
theorem full_history_grows_on_failed_analysis :
    (run_analysis envNoKey { history := [], full_history := [] }).1.full_history.length = 1 ∧
    (analyze_receipt_with_ai envNoKey).1 = missing_key_record "2024-05-01" ∧
    List.lookup "vendor" (analyze_receipt_with_ai envNoKey).1 = some (JVal.jstr "Unknown") :=
  ⟨rfl, rfl, rfl⟩

/-- C5 amended: appending then reading the latest record returns exactly the
appended record and grows the sequence by one, preserving the prefix; the
handler always appends the analyzed record to `history`; and `full_history`
grows by one row exactly when the analyzed record's date string parses under
`%Y-%m-%d` — an analysis attempt whose record date parses adds a row whether
or not the analysis succeeded, and an unparseable date adds none (the handler
raises instead). -/
theorem append_latest_and_growth :
    (∀ (h : List PyDict) (r : PyDict),
        latestRecord (h ++ [r]) = some r ∧
        (h ++ [r]).length = h.length + 1 ∧
        (h ++ [r]).take h.length = h) ∧
    (∀ (env : Env) (s : Sess),
        (run_analysis env s).1.history = s.history ++ [(analyze_receipt_with_ai env).1]) ∧
    (∀ (env : Env) (s : Sess),
        (run_analysis env s).1.full_history.length =
          s.full_history.length +
            (if (recordDate? (analyze_receipt_with_ai env).1).isSome then 1 else 0)) ∧
    (∀ (env : Env) (s : Sess),
        (run_analysis env s).2.isNone = (recordDate? (analyze_receipt_with_ai env).1).isSome) := by
  refine ⟨?_, ?_, ?_, ?_⟩
  · intro h r
    exact ⟨List.getLast?_concat h, by simp, List.take_left h [r]⟩
  · intro env s
    rcases hd : List.lookup "date" (analyze_receipt_with_ai env).1 with _ | v
    · simp [run_analysis, hd]
    · rcases v with _ | b | n | q | ss
      · simp [run_analysis, hd]
      · simp [run_analysis, hd]
      · simp [run_analysis, hd]
      · simp [run_analysis, hd]
      · rcases hs : strptime_Ymd ss with _ | ymd
        · simp [run_analysis, hd, hs]
        · simp [run_analysis, hd, hs]
  · intro env s
    rcases hd : List.lookup "date" (analyze_receipt_with_ai env).1 with _ | v
    · simp [run_analysis, recordDate?, hd]
    · rcases v with _ | b | n | q | ss
      · simp [run_analysis, recordDate?, hd]
      · simp [run_analysis, recordDate?, hd]
      · simp [run_analysis, recordDate?, hd]
      · simp [run_analysis, recordDate?, hd]
      · rcases hs : strptime_Ymd ss with _ | ymd
        · simp [run_analysis, recordDate?, hd, hs]
        · simp [run_analysis, recordDate?, hd, hs]
  · intro env s
    rcases hd : List.lookup "date" (analyze_receipt_with_ai env).1 with _ | v
    · simp [run_analysis, recordDate?, hd]
    · rcases v with _ | b | n | q | ss
      · simp [run_analysis, recordDate?, hd]
      · simp [run_analysis, recordDate?, hd]
      · simp [run_analysis, recordDate?, hd]
      · simp [run_analysis, recordDate?, hd]
      · rcases hs : strptime_Ymd ss with _ | ymd
        · simp [run_analysis, recordDate?, hd, hs]
        · simp [run_analysis, recordDate?, hd, hs]

/-! ### C7: unparseable dates -/

/-- The record produced by a successful analysis in `envBadDate`: the parsed
dict with `amount` and `risk_score` re-coerced (to the same values here). -/
def badDateDict : PyDict :=
  [("vendor", JVal.jstr "Shop"), ("date", JVal.jstr "not-a-date"),
   ("amount", JVal.jnum 42), ("category", JVal.jstr "Meals"),
   ("risk_score", JVal.jint 10), ("risk_reason", JVal.jstr "ok")]

/-- Counterexample to C7: a successfully analyzed record whose date string is
`"not-a-date"` makes the handler raise a `ValueError` (the pipeline does
fail); the record is appended to the analyzer history with its date left as
`"not-a-date"` — not defaulted to the current date `"2024-05-01"` — and no
history-table row is added. -/
theorem unparseable_date_raises :
    run_analysis envBadDate { history := [], full_history := [] } =
      ({ history := [badDateDict], full_history := [] },
        some "ValueError: time data does not match format %Y-%m-%d") ∧
    List.lookup "date" badDateDict = some (JVal.jstr "not-a-date") ∧
    envBadDate.today = "2024-05-01" :=
  ⟨rfl, rfl, rfl⟩

/-- C7 amended: only the two failure paths of the analyzer default the record
date to the current date; when a record's extracted date string does not parse
under `%Y-%m-%d`, the handler raises after appending the record (with its
original date) to the analyzer history, and adds no history-table row. -/
theorem date_defaults_only_on_failure_paths :
    (∀ today e : String,
        List.lookup "date" (missing_key_record today) = some (JVal.jstr today) ∧
        List.lookup "date" (error_record today e) = some (JVal.jstr today)) ∧
    (∀ (env : Env) (s : Sess),
        recordDate? (analyze_receipt_with_ai env).1 = none →
        (run_analysis env s).1.history = s.history ++ [(analyze_receipt_with_ai env).1] ∧
        (run_analysis env s).1.full_history = s.full_history ∧
        (run_analysis env s).2.isSome = true) := by
  refine ⟨fun _ _ => ⟨rfl, rfl⟩, ?_⟩
  intro env s hnone
  rcases hd : List.lookup "date" (analyze_receipt_with_ai env).1 with _ | v
  · refine ⟨?_, ?_, ?_⟩ <;> simp [run_analysis, hd]
  · rcases v with _ | b | n | q | ss
    · refine ⟨?_, ?_, ?_⟩ <;> simp [run_analysis, hd]
    · refine ⟨?_, ?_, ?_⟩ <;> simp [run_analysis, hd]
    · refine ⟨?_, ?_, ?_⟩ <;> simp [run_analysis, hd]
    · refine ⟨?_, ?_, ?_⟩ <;> simp [run_analysis, hd]
    · rcases hs : strptime_Ymd ss with _ | ymd
      · refine ⟨?_, ?_, ?_⟩ <;> simp [run_analysis, hd, hs]
      · exfalso
        simp [recordDate?, hd, hs] at hnone

/-- Witness for C7 amended, at the concrete bad-date environment. -/
theorem date_defaults_only_on_failure_paths_witness :
    (run_analysis envBadDate { history := [], full_history := [] }).1.history =
      [] ++ [(analyze_receipt_with_ai envBadDate).1] ∧
    (run_analysis envBadDate { history := [], full_history := [] }).1.full_history = [] ∧
    (run_analysis envBadDate { history := [], full_history := [] }).2.isSome = true :=
  date_defaults_only_on_failure_paths.2 envBadDate { history := [], full_history := [] } rfl

/-! ### C6: fence stripping -/

/-- Characters of the opening fence with language tag. -/
def fencePre : List Char := ['`', '`', '`', 'j', 's', 'o', 'n']

/-- Characters of the closing fence. -/
def fenceSuf : List Char := ['`', '`', '`']

theorem mk_data_eq (s : String) : (⟨s.data⟩ : String) = s := by
  cases s
  rfl

theorem dropWhile_ws_backtick (l : List Char) :
    List.dropWhile Char.isWhitespace ('`' :: l) = '`' :: l := by
  rw [List.dropWhile_cons]
  simp

theorem trim_fenced (x : List Char) :
    trimChars (fencePre ++ x ++ fenceSuf) = fencePre ++ x ++ fenceSuf := by
  have hshape : fencePre ++ x ++ fenceSuf =
      '`' :: (['`', '`', 'j', 's', 'o', 'n'] ++ x ++ fenceSuf) := rfl
  have h1 : (fencePre ++ x ++ fenceSuf).dropWhile Char.isWhitespace =
      fencePre ++ x ++ fenceSuf := by
    rw [hshape]
    exact dropWhile_ws_backtick _
  have hrev : (fencePre ++ x ++ fenceSuf).reverse =
      '`' :: ('`' :: '`' :: (fencePre ++ x).reverse) := by
    rw [List.reverse_append]
    rfl
  have h2 : (fencePre ++ x ++ fenceSuf).reverse.dropWhile Char.isWhitespace =
      (fencePre ++ x ++ fenceSuf).reverse := by
    rw [hrev]
    exact dropWhile_ws_backtick _
  simp only [trimChars, h1, h2, List.reverse_reverse]

theorem clean_wrapped (p : String) :
    clean_response_text ("```json" ++ p ++ "```") = p := by
  have hdata : ("```json" ++ p ++ "```").data = fencePre ++ p.data ++ fenceSuf := by
    rw [String.data_append, String.data_append]
    rfl
  have hstrip : pyStrip ("```json" ++ p ++ "```") = "```json" ++ p ++ "```" := by
    rw [pyStrip, hdata, trim_fenced p.data, ← hdata]
  have hstart : strStartsWith ("```json" ++ p ++ "```") "```json" = true := by
    rw [strStartsWith, hdata]
    refine List.isPrefixOf_iff_prefix.mpr ?_
    show fencePre <+: fencePre ++ p.data ++ fenceSuf
    exact (List.prefix_append fencePre p.data).trans
      (List.prefix_append (fencePre ++ p.data) fenceSuf)
  have hdrop : strDrop ("```json" ++ p ++ "```") 7 = ⟨p.data ++ fenceSuf⟩ := by
    rw [strDrop, hdata, List.append_assoc]
    show (⟨List.drop fencePre.length (fencePre ++ (p.data ++ fenceSuf))⟩ : String) = _
    rw [List.drop_left]
  have hend : strEndsWith (⟨p.data ++ fenceSuf⟩ : String) "```" = true := by
    rw [strEndsWith]
    refine List.isSuffixOf_iff_suffix.mpr ?_
    show fenceSuf <:+ p.data ++ fenceSuf
    exact List.suffix_append p.data fenceSuf
  have hdropr : strDropRight (⟨p.data ++ fenceSuf⟩ : String) 3 = p := by
    rw [strDropRight]
    show (⟨List.take ((p.data ++ fenceSuf).length - 3) (p.data ++ fenceSuf)⟩ : String) = p
    have hlen : (p.data ++ fenceSuf).length - 3 = p.data.length := by
      simp [fenceSuf]
    rw [hlen, List.take_left]
  simp only [clean_response_text, hstrip, hstart, if_true, hdrop, hend, hdropr]

theorem clean_unwrapped (p : String) (h1 : strStartsWith p "```json" = false)
    (h2 : strEndsWith p "```" = false) (h3 : pyStrip p = p) :
    clean_response_text p = p := by
  simp only [clean_response_text, h3, h1, h2, Bool.false_eq_true, if_false]

/-- C6: a model response wrapped in a fenced code block is stripped back to
the bare payload before parsing, so a run receiving the wrapped payload
produces exactly the record of a run receiving the unwrapped payload (for
payloads that are not themselves fence-shaped or whitespace-padded). -/
theorem fence_stripping_preserves_record :
    ∀ (env : Env) (p : String),
      strStartsWith p "```json" = false →
      strEndsWith p "```" = false →
      pyStrip p = p →
      clean_response_text ("```json" ++ p ++ "```") = clean_response_text p ∧
      analyze_receipt_with_ai
          { env with respond := fun _ => Except.ok ("```json" ++ p ++ "```") } =
        analyze_receipt_with_ai { env with respond := fun _ => Except.ok p } := by
  intro env p h1 h2 h3
  have hc : clean_response_text ("```json" ++ p ++ "```") = p := clean_wrapped p
  have hc2 : clean_response_text p = p := clean_unwrapped p h1 h2 h3
  refine ⟨hc.trans hc2.symm, ?_⟩
  simp only [analyze_receipt_with_ai, analyze_try, hc, hc2]

/-- Witness for C6 with the concrete payload `"null"`. -/
theorem fence_stripping_preserves_record_witness :
    clean_response_text ("```json" ++ "null" ++ "```") = clean_response_text "null" ∧
    analyze_receipt_with_ai
        { envOkJson with respond := fun _ => Except.ok ("```json" ++ "null" ++ "```") } =
      analyze_receipt_with_ai { envOkJson with respond := fun _ => Except.ok "null" } :=
  fence_stripping_preserves_record envOkJson "null" (by decide) (by decide) (by decide)

/-! ### C8: summarize and topN -/

theorem lookup_cons_self_g {β : Type} (k : String) (v : β) (d : List (String × β)) :
    List.lookup k ((k, v) :: d) = some v := by
  rw [List.lookup_cons]
  simp

theorem lookup_cons_ne_g {β : Type} (k a : String) (v : β) (d : List (String × β))
    (h : ¬ k = a) : List.lookup k ((a, v) :: d) = List.lookup k d := by
  rw [List.lookup_cons]
  have hb : (k == a) = false := by simp [h]
  rw [hb]

theorem mem_insertAscStr (a x : String) :
    ∀ l : List String, a ∈ insertAscStr x l ↔ a = x ∨ a ∈ l := by
  intro l
  induction l with
  | nil => simp [insertAscStr]
  | cons y ys ih =>
    cases hxy : strLeB x y
    · simp only [insertAscStr, hxy, Bool.false_eq_true, if_false, List.mem_cons, ih]
      tauto
    · simp only [insertAscStr, hxy, if_true, List.mem_cons]

theorem mem_sortStrAsc (a : String) :
    ∀ l : List String, a ∈ sortStrAsc l ↔ a ∈ l := by
  intro l
  induction l with
  | nil => simp [sortStrAsc]
  | cons x xs ih =>
    simp only [sortStrAsc, mem_insertAscStr, ih, List.mem_cons]

theorem lookup_map_self (f : String → ℚ) :
    ∀ (l : List String) (c : String),
      List.lookup c (l.map fun x => (x, f x)) = if c ∈ l then some (f c) else none := by
  intro l
  induction l with
  | nil => intro c; simp
  | cons x xs ih =>
    intro c
    rw [List.map_cons]
    by_cases hcx : c = x
    · subst hcx
      rw [lookup_cons_self_g]
      simp
    · rw [lookup_cons_ne_g _ _ _ _ hcx, ih]
      by_cases hm : c ∈ xs
      · simp [hm, hcx]
      · simp [hm, hcx]

theorem filter_orderedInsert (x : String × ℚ) (q : ℚ) :
    ∀ l : List (String × ℚ),
      (List.orderedInsert amountDescRel x l).filter (fun p => decide (p.2 = q)) =
        if x.2 = q then x :: l.filter (fun p => decide (p.2 = q))
        else l.filter (fun p => decide (p.2 = q)) := by
  intro l
  induction l with
  | nil =>
    by_cases h : x.2 = q <;> simp [List.orderedInsert, List.filter, h]
  | cons y ys ih =>
    rw [List.orderedInsert]
    by_cases hr : amountDescRel x y
    · rw [if_pos hr]
      by_cases hx : x.2 = q <;> simp [List.filter_cons, hx]
    · rw [if_neg hr]
      have hlt : x.2 < y.2 := lt_of_not_le hr
      by_cases hx : x.2 = q
      · have hy : ¬(y.2 = q) := by
          intro hy
          rw [hx] at hlt
          rw [hy] at hlt
          exact lt_irrefl q hlt
        simp [List.filter_cons, hy, ih, hx]
      · simp [List.filter_cons, ih, hx]

theorem sortDesc_stable (q : ℚ) :
    ∀ s : List (String × ℚ),
      (sortDesc s).filter (fun p => decide (p.2 = q)) =
        s.filter (fun p => decide (p.2 = q)) := by
  intro s
  induction s with
  | nil => rfl
  | cons x xs ih =>
    show (List.orderedInsert amountDescRel x (List.insertionSort amountDescRel xs)).filter
        (fun p => decide (p.2 = q)) = _
    rw [filter_orderedInsert]
    by_cases hx : x.2 = q
    · rw [if_pos hx]
      show x :: (sortDesc xs).filter (fun p => decide (p.2 = q)) = _
      rw [ih, List.filter_cons]
      simp [hx]
    · rw [if_neg hx]
      show (sortDesc xs).filter (fun p => decide (p.2 = q)) = _
      rw [ih, List.filter_cons]
      simp [hx]

/-- The concrete table of the C8 example: rows (Travel, 100), (Travel, 50),
(Meals, 30). -/
def exRowsC8 : List Row :=
  [{ Category := some "Travel", Amount := some 100, Date := none },
   { Category := some "Travel", Amount := some 50, Date := none },
   { Category := some "Meals", Amount := some 30, Date := none }]

theorem catTotal_ex_travel : catTotal exRowsC8 "Travel" = 150 := by
  simp +decide only [catTotal, exRowsC8, List.filterMap_cons, List.sum_cons, List.sum_nil,
    List.filterMap_nil]
  norm_num

theorem catTotal_ex_meals : catTotal exRowsC8 "Meals" = 30 := by
  simp +decide only [catTotal, exRowsC8, List.filterMap_cons, List.sum_cons, List.sum_nil,
    List.filterMap_nil]
  norm_num

theorem df_summary_ex : df_summary exRowsC8 = [("Meals", 30), ("Travel", 150)] := by
  have h1 : sortStrAsc (rowCats exRowsC8) = ["Meals", "Travel"] := by decide
  simp only [df_summary, h1, List.map_cons, List.map_nil, catTotal_ex_travel,
    catTotal_ex_meals]

/-- C8: the summary maps exactly the categories present in the table to the
sum of their amounts; `topN` is a prefix of a descending stable sort of the
summary (hence the `n` greatest totals, descending, ties kept in summary
order); and on the concrete example the summary is Travel 150 / Meals 30 and
the top-1 entry is Travel. -/
theorem summarize_topN_spec :
    (∀ (t : List Row) (c : String),
        List.lookup c (df_summary t) =
          if c ∈ rowCats t then some (catTotal t c) else none) ∧
    (∀ (s : List (String × ℚ)) (n : Nat), List.Sorted amountDescRel (topN s n)) ∧
    (∀ (s : List (String × ℚ)) (n : Nat),
        topN s n ++ (sortDesc s).drop n = sortDesc s ∧ (sortDesc s).Perm s) ∧
    (∀ (s : List (String × ℚ)) (q : ℚ),
        (sortDesc s).filter (fun p => decide (p.2 = q)) =
          s.filter (fun p => decide (p.2 = q))) ∧
    df_summary exRowsC8 = [("Meals", 30), ("Travel", 150)] ∧
    List.lookup "Travel" (df_summary exRowsC8) = some 150 ∧
    List.lookup "Meals" (df_summary exRowsC8) = some 30 ∧
    topN (df_summary exRowsC8) 1 = [("Travel", 150)] := by
  refine ⟨?_, ?_, ?_, fun s q => sortDesc_stable q s, df_summary_ex, ?_, ?_, ?_⟩
  · intro t c
    rw [df_summary, lookup_map_self]
    by_cases hm : c ∈ rowCats t
    · rw [if_pos ((mem_sortStrAsc _ _).mpr hm), if_pos hm]
    · rw [if_neg (fun h => hm ((mem_sortStrAsc _ _).mp h)), if_neg hm]
  · intro s n
    exact List.Pairwise.sublist (List.take_sublist n _)
      (List.sorted_insertionSort amountDescRel s)
  · intro s n
    exact ⟨List.take_append_drop n _, List.perm_insertionSort amountDescRel s⟩
  · rw [df_summary_ex]
    rw [lookup_cons_ne_g _ _ _ _ (by decide), lookup_cons_self_g]
  · rw [df_summary_ex, lookup_cons_self_g]
  · rw [topN, df_summary_ex]
    show (List.orderedInsert amountDescRel ("Meals", 30)
      (List.orderedInsert amountDescRel ("Travel", 150) [])).take 1 = _
    rw [List.orderedInsert_nil, List.orderedInsert,
      if_neg (by norm_num [amountDescRel]), List.orderedInsert_nil]
    rfl

/-! ### C9: forecast bounds -/

theorem roundHalfEven_ge (n : Int) (q : ℚ) (h : (n : ℚ) ≤ q) : n ≤ roundHalfEven q := by
  have hf : n ≤ ⌊q⌋ := Int.le_floor.mpr h
  simp only [roundHalfEven]
  split_ifs <;> omega

theorem roundHalfEven_le (m : Int) (q : ℚ) (h : q ≤ (m : ℚ)) : roundHalfEven q ≤ m := by
  have hf : ⌊q⌋ ≤ m := by
    have h2 := Int.floor_le_floor h
    rwa [Int.floor_intCast] at h2
  have hfq : (⌊q⌋ : ℚ) ≤ q := Int.floor_le q
  simp only [roundHalfEven]
  split_ifs with h1 h2 h3
  · exact hf
  · by_contra hcon
    have hm : m = ⌊q⌋ := by omega
    rw [hm] at h
    linarith
  · exact hf
  · by_contra hcon
    have hm : m = ⌊q⌋ := by omega
    rw [hm] at h
    have hr : ¬ (q - (⌊q⌋ : ℚ) < 1 / 2) := h1
    linarith

/-- The concrete one-row history summing to 1000 used by the C9 witness. -/
def exRowsC9 : List Row :=
  [{ Category := some "Travel", Amount := some 1000, Date := none }]

/-- C9: the returned forecast is the summed history times the sampled
multiplier, rounded to two decimals; for any history summing to 1000 and any
multiplier in [0.95, 1.05] it lies in [950, 1050]. -/
theorem forecast_within_bounds :
    ∀ (t : List Row) (u : ℚ),
      (95 : ℚ) / 100 ≤ u → u ≤ (105 : ℚ) / 100 → amountSum t = 1000 →
      (get_financial_advice_and_prediction t u).monthly_forecast =
        pyRound2 (amountSum t * u) ∧
      950 ≤ (get_financial_advice_and_prediction t u).monthly_forecast ∧
      (get_financial_advice_and_prediction t u).monthly_forecast ≤ 1050 := by
  intro t u h1 h2 hsum
  refine ⟨rfl, ?_, ?_⟩
  · show (950 : ℚ) ≤ pyRound2 (amountSum t * u)
    rw [hsum, pyRound2]
    have hlo : ((95000 : Int) : ℚ) ≤ 1000 * u * 100 := by
      push_cast
      linarith
    have hb := roundHalfEven_ge 95000 (1000 * u * 100) hlo
    rw [le_div_iff₀ (by norm_num : (0 : ℚ) < 100)]
    have hb' : ((95000 : Int) : ℚ) ≤ (roundHalfEven (1000 * u * 100) : ℚ) := by
      exact_mod_cast hb
    push_cast at hb'
    linarith
  · show pyRound2 (amountSum t * u) ≤ (1050 : ℚ)
    rw [hsum, pyRound2]
    have hhi : 1000 * u * 100 ≤ ((105000 : Int) : ℚ) := by
      push_cast
      linarith
    have hb := roundHalfEven_le 105000 (1000 * u * 100) hhi
    rw [div_le_iff₀ (by norm_num : (0 : ℚ) < 100)]
    have hb' : (roundHalfEven (1000 * u * 100) : ℚ) ≤ ((105000 : Int) : ℚ) := by
      exact_mod_cast hb
    push_cast at hb'
    linarith

/-- Witness for C9: the one-row history summing to 1000 with multiplier 1. -/
theorem forecast_within_bounds_witness :
    (get_financial_advice_and_prediction exRowsC9 1).monthly_forecast =
      pyRound2 (amountSum exRowsC9 * 1) ∧
    950 ≤ (get_financial_advice_and_prediction exRowsC9 1).monthly_forecast ∧
    (get_financial_advice_and_prediction exRowsC9 1).monthly_forecast ≤ 1050 :=
  forecast_within_bounds exRowsC9 1 (by norm_num) (by norm_num)
    (by simp [amountSum, exRowsC9])
